import Mathlib

/-!
Verification of the Streamlit cruise-capacity dashboard
(`src/app.py`, the v1 dashboard, and `src/appv2.py`, the v2 dashboard).

The data-cleaning and chart-configuration logic is embedded shallowly:

* spreadsheet cell values are `Cell` (string, integer, or missing);
* a pandas DataFrame is a header plus a list of rows (`DF`);
* numeric values are modelled by `ℚ`.  Every constant appearing in the
  source (`0.005`, `0.25`, ...) is an exact decimal, and every numeric
  scenario in the spec uses exact decimals, so rational arithmetic agrees
  with the float arithmetic of the source on everything stated here;
* fallible pandas operations (reading a missing sheet, reindexing a frame
  with duplicate labels, `astype(int)` on a non-integer string) are
  embedded in `Except String`; a value of the form `.error e` that reaches
  the top of a modelled script stands for an uncaught Python exception.
-/

/-! ## Value cleaning (`clean_capacity_column`, appv2.py lines 94-96) -/

/-- Digits of a numeral, most significant first, folded to a natural number. -/
def digitsVal (cs : List Char) : Nat :=
  cs.foldl (fun acc c => acc * 10 + (c.toNat - 48)) 0

/-- Splits a character list at every dot, mirroring how a decimal literal
separates into integer part and fractional part. -/
def splitOnDot (cs : List Char) : List (List Char) :=
  match cs with
  | [] => [[]]
  | c :: rest =>
    match splitOnDot rest with
    | [] => [[]]
    | piece :: pieces =>
      if c = '.' then [] :: piece :: pieces else (c :: piece) :: pieces

/-- Model of `pd.to_numeric(..., errors="coerce")` applied to a string made
of digits and dots (the only strings the cleaner ever feeds it): a valid
decimal literal — at most one dot and at least one digit — parses to its
exact rational value, anything else becomes missing (`none`). -/
def parseDecimalChars (cs : List Char) : Option ℚ :=
  match splitOnDot cs with
  | [intPart] =>
    if intPart ≠ [] ∧ intPart.all Char.isDigit then
      some (mkRat (digitsVal intPart) 1)
    else none
  | [intPart, fracPart] =>
    if (intPart ≠ [] ∨ fracPart ≠ []) ∧ intPart.all Char.isDigit ∧ fracPart.all Char.isDigit then
      some (mkRat (digitsVal (intPart ++ fracPart)) (10 ^ fracPart.length))
    else none
  | _ => none

/-- Model of `.str.replace(r"[^\d.]", "", regex=True)` (appv2.py line 96):
every character that is not a digit or a dot is removed. -/
def stripNonNumericChars (s : String) : String :=
  String.mk (s.toList.filter fun c => c.isDigit || c == '.')

/-- One cell of `clean_capacity_column` (appv2.py lines 94-96): the cell is
already text (`astype(str)`), the non-numeric characters are stripped, and
the remainder is parsed, with parse failures coerced to missing. -/
def clean_capacity_cell (s : String) : Option ℚ :=
  parseDecimalChars (stripNonNumericChars s).toList

/-- The whole value column, cleaned cell by cell. -/
def clean_capacity_column (cells : List String) : List (Option ℚ) :=
  cells.map clean_capacity_cell

/-! ## Row cleaning in `build_sidebar` (appv2.py lines 949-950)

The source runs `df[[label, value]].dropna().copy()` first and only then
replaces the value column with `clean_capacity_column(...)`.  A raw cell is
`none` when the spreadsheet cell was missing (NaN). -/

/-- Model of `dropna()` on a two-column frame: a row survives exactly when
both its label cell and its value cell are present. -/
def dropnaPair : Option String × Option String → Option (String × String)
  | (some l, some v) => some (l, v)
  | _ => none

/-- The cleaning step of `build_sidebar` (appv2.py lines 949-950): drop the
rows with a missing raw cell, then clean the value column. -/
def build_sidebar_clean (rows : List (Option String × Option String)) :
    List (String × Option ℚ) :=
  (rows.filterMap dropnaPair).map fun p => (p.1, clean_capacity_cell p.2)

/-- The Year Series scenario of the spec:
`[(2017, "500,000"), (2018, "abc"), (2019, "600,000")]`. -/
def yearRows : List (Option String × Option String) :=
  [(some "2017", some "500,000"), (some "2018", some "abc"), (some "2019", some "600,000")]

/-! ## Pie chart configurator (`create_pie_chart`, appv2.py lines 99-227)

The geometry formulas below transcribe appv2.py lines 124-151; the decimal
literals are the exact constants of the source. -/

/-- Horizontal safety gutter (appv2.py line 124):
`min(0.25, 0.10 + max_label_len * 0.005 + num_slices * 0.002)`. -/
def hGutter (n L : ℕ) : ℚ :=
  min 0.25 (0.10 + (L : ℚ) * 0.005 + (n : ℚ) * 0.002)

/-- Vertical top gutter (appv2.py lines 126-131), three tiers keyed on the
slice count. -/
def vGutterT (n L : ℕ) : ℚ :=
  if n ≤ 8 then min 0.20 (0.10 + (n : ℚ) * 0.005 + (L : ℚ) * 0.001)
  else if n ≤ 15 then min 0.25 (0.12 + (n : ℚ) * 0.006 + (L : ℚ) * 0.0015)
  else min 0.30 (0.15 + (n : ℚ) * 0.007 + (L : ℚ) * 0.002)

/-- Vertical bottom gutter (appv2.py line 133):
`min(0.12, 0.05 + num_slices * 0.002)`. -/
def vGutterB (n : ℕ) : ℚ :=
  min 0.12 (0.05 + (n : ℚ) * 0.002)

/-- Tier fraction for the title position (appv2.py lines 141-146). -/
def titleFraction (n : ℕ) : ℚ :=
  if n ≤ 8 then 0.35 else if n ≤ 15 then 0.50 else 0.60

/-- Base title position (appv2.py lines 139-146): the top of the drawing
domain `1 - v_gutter_t` plus the tier fraction of the top gutter. -/
def baseTitleY (n L : ℕ) : ℚ :=
  (1 - vGutterT n L) + vGutterT n L * titleFraction n

/-- Adjusted and clamped title position (appv2.py lines 148-149):
`min(max(base + adjustment * v_gutter_t * 0.5, 0.02), 0.98)`. -/
def adjustedTitleY (n L : ℕ) (adj : ℚ) : ℚ :=
  min (max (baseTitleY n L + adj * vGutterT n L * 0.5) 0.02) 0.98

/-- Base inside-label font size (appv2.py lines 165-173). -/
def baseInsideFont (n : ℕ) : ℕ :=
  if n < 10 then 14 else if n < 15 then 12 else 10

/-- Base outside-label font size (appv2.py lines 165-173). -/
def baseOutsideFont (n : ℕ) : ℕ :=
  if n < 10 then 12 else if n < 15 then 10 else 9

/-- Python `int(...)` on the scaled font size: truncation toward zero. -/
def pyInt (q : ℚ) : ℤ :=
  if 0 ≤ q then q.floor else -((-q).floor)

/-- Style parameters of `create_pie_chart` that the claims touch: the
keyword arguments of appv2.py lines 100-111 (the colour and text arguments
pass through to the renderer unchanged and are kept as opaque data). -/
structure ChartStyle where
  titleText : String
  titleYAdjustment : ℚ
  labelFontSizeMultiplier : ℚ
  watermarkText : String
  watermarkX : ℚ
  watermarkY : ℚ
  deriving DecidableEq

/-- The default style of appv2.py lines 100-111. -/
def defaultStyle : ChartStyle :=
  ⟨"Cruise Line Capacity Distribution", 0, 1, "Data: Cruise Industry News", 1, -0.05⟩

/-- The chart specification emitted by `create_pie_chart`: the data and the
layout numbers handed to the plotting library (appv2.py lines 154-225). -/
structure PieSpec where
  labels : List String
  values : List (Option ℚ)
  hG : ℚ
  vT : ℚ
  vB : ℚ
  xDomain : ℚ × ℚ
  yDomain : ℚ × ℚ
  titleY : ℚ
  pieCenterY : ℚ
  outsideOnly : Bool
  insideFontSize : ℤ
  outsideFontSize : ℤ
  marginTop : ℕ
  cornerMark : ℚ × ℚ
  centerMark : ℚ × ℚ
  deriving DecidableEq

/-- The maximum label length of a frame (appv2.py line 121):
`df[label_col].astype(str).map(len).max()`.  On the empty frame this is 0
here where pandas would give NaN; the dashboard never charts an empty frame
and the claims about geometry assume at least one row. -/
def maxLabelLen (df : List (String × Option ℚ)) : ℕ :=
  (df.map fun p => p.1.length).foldr max 0

/-- The chart specification computed from the (possibly reindexed) frame,
transcribing appv2.py lines 119-225. -/
def pieSpecOfDf (df : List (String × Option ℚ)) (cfg : ChartStyle) : PieSpec :=
  let n := df.length
  let L := maxLabelLen df
  ⟨df.map Prod.fst,
   df.map Prod.snd,
   hGutter n L,
   vGutterT n L,
   vGutterB n,
   (hGutter n L, 1 - hGutter n L),
   (vGutterB n, 1 - vGutterT n L),
   adjustedTitleY n L cfg.titleYAdjustment,
   (vGutterB n + (1 - vGutterT n L)) / 2,
   decide (10 < n),
   pyInt ((baseInsideFont n : ℚ) * cfg.labelFontSizeMultiplier),
   pyInt ((baseOutsideFont n : ℚ) * cfg.labelFontSizeMultiplier),
   max 40 (n * 2),
   (cfg.watermarkX, cfg.watermarkY),
   (0.5, (vGutterB n + (1 - vGutterT n L)) / 2)⟩

/-- Model of `df.set_index(label_col).reindex(custom_order).reset_index()`
(appv2.py line 117): one row per label of the custom order, carrying the
value of the first matching data row, or a missing value when the label is
absent from the data.  Pandas raises a `ValueError` when the index being
reindexed has duplicate labels; that exception is the `.error` branch. -/
def reindexFrame (df : List (String × Option ℚ)) (order : List String) :
    Except String (List (String × Option ℚ)) :=
  if (df.map Prod.fst).Nodup then
    .ok (order.map fun l => (l, ((df.lookup l).getD none)))
  else .error "ValueError: cannot reindex on an axis with duplicate labels"

/-- The pie configurator (appv2.py lines 99-227).  A Python-falsy
`custom_order` — `None` or the empty list — skips the reindexing
(`if custom_order:` at line 116). -/
def create_pie_chart (df : List (String × Option ℚ)) (customOrder : Option (List String))
    (cfg : ChartStyle) : Except String PieSpec :=
  match customOrder with
  | none => .ok (pieSpecOfDf df cfg)
  | some [] => .ok (pieSpecOfDf df cfg)
  | some (l :: ls) => (reindexFrame df (l :: ls)).map (pieSpecOfDf · cfg)

/-- Reindex pipeline with explicit state passing: `set_index`, `reindex`
and `reset_index` are all called without `inplace`, so each returns a fresh
frame and the caller-visible frame after the call is the unchanged input.
The first component is the caller frame after the call, the second the new
frame (or the `ValueError` on a duplicate index). -/
def reindexPipeline (df : List (String × Option ℚ)) (order : List String) :
    List (String × Option ℚ) × Except String (List (String × Option ℚ)) :=
  (df, reindexFrame df order)

/-- The pie configurator with the caller frame made explicit: the result
spec together with the frame the caller holds once the call returns. -/
def create_pie_chartSt (df : List (String × Option ℚ)) (customOrder : Option (List String))
    (cfg : ChartStyle) : Except String PieSpec × List (String × Option ℚ) :=
  match customOrder with
  | none => (.ok (pieSpecOfDf df cfg), df)
  | some [] => (.ok (pieSpecOfDf df cfg), df)
  | some (l :: ls) =>
    ((reindexPipeline df (l :: ls)).2.map (pieSpecOfDf · cfg),
     (reindexPipeline df (l :: ls)).1)

/-- The Category Series scenario of the spec:
`[("Royal Caribbean", "1,200,000"), ("Carnival", "980,500")]`. -/
def cruiseRows : List (Option String × Option String) :=
  [(some "Royal Caribbean", some "1,200,000"), (some "Carnival", some "980,500")]

/-! ## Spreadsheet model and the v1 loader (`load_data_from_excel`, app.py lines 21-41) -/

/-- A spreadsheet cell: a string, an integer, or missing (NaN). -/
inductive Cell where
  | str (s : String)
  | int (n : Int)
  | na
  deriving DecidableEq

/-- A pandas DataFrame: column names plus rows of cells. -/
structure DF where
  header : List String
  rows : List (List Cell)
  deriving DecidableEq

/-- An Excel workbook: named sheets. -/
def Workbook : Type := List (String × DF)

/-- Model of `pd.read_excel(buffer, sheet_name=name)` on an already parsed
workbook: the named sheet, or the exception pandas raises when the sheet
does not exist. -/
def readSheet (wb : Workbook) (name : String) : Except String DF :=
  match List.lookup name wb with
  | some df => .ok df
  | none => .error ("Worksheet named " ++ name ++ " not found")

/-- Position of a named column, or `none` (pandas: `KeyError`) when the
column is absent. -/
def colIndex (header : List String) (name : String) : Option ℕ :=
  match header with
  | [] => none
  | h :: t => if h = name then some 0 else (colIndex t name).map (· + 1)

/-- The cell of a row at a column position (missing when the row is short). -/
def getCell (row : List Cell) (i : ℕ) : Cell :=
  row.getD i Cell.na

/-- Elementwise pandas comparison of a cell with a string: only a string
cell can compare equal (a number or NaN compares unequal). -/
def cellEqStr (c : Cell) (s : String) : Bool :=
  match c with
  | .str t => t == s
  | _ => false

/-- Elementwise pandas comparison of a cell with an integer: only an
integer cell can compare equal (a string or NaN compares unequal). -/
def cellEqInt (c : Cell) (k : Int) : Bool :=
  match c with
  | .int n => n == k
  | _ => false

/-- Model of `astype(str)` on one cell: a missing value prints as "nan". -/
def cellToStr : Cell → String
  | .str s => s
  | .int n => toString n
  | .na => "nan"

/-- Model of Python `int(...)` on a character list: an optional sign
followed by at least one digit; anything else raises `ValueError`. -/
def parseIntChars (cs : List Char) : Option Int :=
  match cs with
  | '-' :: rest =>
    if rest ≠ [] ∧ rest.all Char.isDigit then some (-(digitsVal rest : Int)) else none
  | _ =>
    if cs ≠ [] ∧ cs.all Char.isDigit then some ((digitsVal cs : Int)) else none

/-- Model of
`df['Capacity'].astype(str).str.replace(',', '').astype(int)` (app.py
line 36) applied to the filtered Caribbean rows: every capacity cell is
printed, its commas removed and the result parsed as an integer; the first
non-integer cell raises the `ValueError` of `astype(int)`.  Each converted
row keeps its first (year) cell. -/
def convertCapacity : List (List Cell) → Except String (List (List Cell))
  | [] => .ok []
  | r :: rs =>
    match parseIntChars ((cellToStr (getCell r 1)).toList.filter fun c => c ≠ ',') with
    | none => .error "ValueError: invalid literal for int() with base 10"
    | some n =>
      match convertCapacity rs with
      | .error e => .error e
      | .ok out => .ok ([getCell r 0, Cell.int n] :: out)

/-- The body of the `try:` block of `load_data_from_excel` (app.py lines
23-38): read the two sheets by name, drop the cruise-line rows whose
'Cruise Line' cell is the string 'Cruise Line', drop the Caribbean rows
whose first column is 2016, rename the Caribbean columns to Year/Capacity,
and convert the capacities to integers.  Every pandas exception along the
way is the `.error` branch. -/
def loadBody (file : Except String Workbook) : Except String (DF × DF) :=
  match file with
  | .error e => .error e
  | .ok wb =>
    match readSheet wb "Sheet1" with
    | .error e => .error e
    | .ok dfc =>
      match readSheet wb "Caribbean" with
      | .error e => .error e
      | .ok dfy =>
        match colIndex dfc.header "Cruise Line" with
        | none => .error "KeyError: Cruise Line"
        | some i =>
          if dfy.header.isEmpty then
            .error "IndexError: single positional indexer is out-of-bounds"
          else
            if dfy.header.length = 2 then
              match convertCapacity (dfy.rows.filter fun r => !cellEqInt (getCell r 0) 2016) with
              | .error e => .error e
              | .ok rowsC =>
                .ok (⟨dfc.header, dfc.rows.filter fun r => !cellEqStr (getCell r i) "Cruise Line"⟩,
                     ⟨["Year", "Capacity"], rowsC⟩)
            else .error "ValueError: Length mismatch"

/-- The v1 loader `load_data_from_excel` (app.py lines 21-41): the `try:`
body, with the catch-all `except` displaying
`st.error(f"Error loading Excel file: {cause}")` and returning
`None, None`.  The second component is the list of displayed messages. -/
def load_data_from_excel (file : Except String Workbook) :
    Option (DF × DF) × List String :=
  match loadBody file with
  | .ok p => (some p, [])
  | .error e => (none, ["Error loading Excel file: " ++ e])

/-- The chart-drawing decision of the v1 script (app.py lines 107-119):
both charts are rendered when both frames are present, and none otherwise. -/
def appMainChartsDrawn (file : Except String Workbook) : ℕ :=
  match (load_data_from_excel file).1 with
  | some _ => 2
  | none => 0

/-- Model of one raw spreadsheet cell as seen by `build_sidebar` after the
label and value columns are selected. -/
def cellToOptStr : Cell → Option String
  | .str s => some s
  | .int n => some (toString n)
  | .na => none

/-- The two selected columns of one row (appv2.py lines 942-943, 949). -/
def rowToPair (row : List Cell) (li vi : ℕ) : Option String × Option String :=
  (cellToOptStr (getCell row li), cellToOptStr (getCell row vi))

/-- The v2 per-chart flow (appv2.py lines 932-957 and 966-1020): open the
workbook (`pd.ExcelFile`), read the selected sheet (`pd.read_excel`),
select and clean the two columns, and run the configurator.  appv2.py
contains no `try`/`except`, so every `.error` that this function returns is
an exception that propagates out of the script uncaught. -/
def appv2_chart_flow (file : Except String Workbook) (sheet : String) (li vi : ℕ)
    (order : Option (List String)) (cfg : ChartStyle) : Except String PieSpec :=
  match file with
  | .error e => .error e
  | .ok wb =>
    match readSheet wb sheet with
    | .error e => .error e
    | .ok df =>
      create_pie_chart (build_sidebar_clean (df.rows.map fun r => rowToPair r li vi)) order cfg

/-- A workbook with a Sheet1 but no Caribbean sheet. -/
def wbNoCaribbean : Workbook :=
  [("Sheet1", ⟨["Cruise Line", "Capacity"], []⟩)]

/-- A workbook whose cruise sheet repeats its header as a data row and
whose Caribbean sheet holds a genuine data row for the year 2016. -/
def wbWith2016 : Workbook :=
  [("Sheet1", ⟨["Cruise Line", "Capacity"],
      [[Cell.str "Royal", Cell.str "1,000"], [Cell.str "Cruise Line", Cell.str "Capacity"]]⟩),
   ("Caribbean", ⟨["Y", "C"],
      [[Cell.int 2016, Cell.str "1,000"], [Cell.int 2017, Cell.str "2,000"]]⟩)]

/-! ## Claim theorems (first group) -/

/-- C1: every raw value-column cell is cleaned by stripping every character
that is not a digit or a decimal point and parsing the remainder, failures
becoming missing rather than an error; in particular `"$12,345.00"` cleans
to exactly `12345.0` and an all-letter cell cleans to missing. -/
theorem c1_value_cleaning :
    (∀ s : String,
        clean_capacity_cell s
          = parseDecimalChars (s.toList.filter fun c => c.isDigit || c == '.'))
    ∧ clean_capacity_cell "$12,345.00" = some (12345 : ℚ)
    ∧ clean_capacity_cell "abc" = none := by
  refine ⟨fun s => rfl, by decide, by decide⟩

/-- C2 counterexample: the Year Series scenario does not clean to
`[(2017, 500000.0), (2019, 600000.0)]` — the 2018 row is not dropped,
because `dropna()` runs before the value column is cleaned. -/
theorem c2_counterexample :
    build_sidebar_clean yearRows ≠ [("2017", some 500000), ("2019", some 600000)] := by
  decide

/-- C2 amended: a row is excluded exactly when its raw label cell or raw
value cell is missing; surviving rows keep their order and their value is
cleaned afterwards, so a row whose value fails to parse is retained with a
missing value.  The scenario cleans to
`[(2017, 500000.0), (2018, missing), (2019, 600000.0)]`. -/
theorem c2_dropna_before_cleaning :
    (∀ rows : List (Option String × Option String),
        build_sidebar_clean rows
          = rows.filterMap fun r => (dropnaPair r).map fun p => (p.1, clean_capacity_cell p.2))
    ∧ build_sidebar_clean yearRows
        = [("2017", some 500000), ("2018", none), ("2019", some 600000)] := by
  refine ⟨fun rows => ?_, by decide⟩
  simp [build_sidebar_clean, List.map_filterMap]

/-- C4: when the custom display order has the same label set as the data
(in any order) and the data labels are distinct, the configurator succeeds
and its output label sequence is exactly the custom order. -/
theorem c4_custom_order_labels (df : List (String × Option ℚ)) (order : List String)
    (cfg : ChartStyle) (hnd : (df.map Prod.fst).Nodup)
    (hset : order.toFinset = (df.map Prod.fst).toFinset) :
    (create_pie_chart df (some order) cfg).map PieSpec.labels = .ok order := by
  cases order with
  | nil =>
    have hdf : df.map Prod.fst = [] := by
      rw [← List.toFinset_eq_empty_iff, ← hset]
      rfl
    have hdfnil : df = [] := by
      cases df with
      | nil => rfl
      | cons a l => simp at hdf
    subst hdfnil
    rfl
  | cons l ls =>
    simp only [create_pie_chart, reindexFrame, if_pos hnd, Except.map, pieSpecOfDf]
    simp [List.map_map, Function.comp_def]

/-- C4 witness: a two-row series reordered by a reversed custom order. -/
theorem c4_witness :
    (create_pie_chart [("A", some (1 : ℚ)), ("B", some 2)] (some ["B", "A"])
        defaultStyle).map PieSpec.labels = .ok ["B", "A"] :=
  c4_custom_order_labels [("A", some 1), ("B", some 2)] ["B", "A"] defaultStyle
    (by decide) (by decide)

/-- C5: the horizontal gutter `min(0.25, 0.10 + 0.005 L + 0.002 n)` is
monotonically non-decreasing in the slice count and the label length, and
never exceeds 0.25. -/
theorem c5_h_gutter_monotone (n n' L L' : ℕ) (h1 : 1 ≤ n) (hn : n ≤ n') (hL : L ≤ L') :
    hGutter n L ≤ hGutter n' L' ∧ hGutter n L ≤ 0.25 ∧ hGutter n' L' ≤ 0.25 := by
  refine ⟨min_le_min le_rfl ?_, min_le_left _ _, min_le_left _ _⟩
  have hnq : (n : ℚ) ≤ (n' : ℚ) := by exact_mod_cast hn
  have hLq : (L : ℚ) ≤ (L' : ℚ) := by exact_mod_cast hL
  gcongr

/-- C5 witness: the gutter at (n, L) = (1, 0) against (2, 3). -/
theorem c5_witness :
    hGutter 1 0 ≤ hGutter 2 3 ∧ hGutter 1 0 ≤ 0.25 ∧ hGutter 2 3 ≤ 0.25 :=
  c5_h_gutter_monotone 1 2 0 3 (by decide) (by decide) (by decide)

/-- C6: with no custom order, the emitted title y-position is the top of
the drawing domain plus the tier fraction (0.35 for n up to 8, 0.50 for n
up to 15, 0.60 beyond) of the top gutter, plus the user adjustment scaled
by half the top gutter, clamped to the interval from 0.02 to 0.98; and
every emitted title y-position lies in that interval. -/
theorem c6_title_position (df : List (String × Option ℚ)) (cfg : ChartStyle)
    (hne : df ≠ []) (hlo : -1 ≤ cfg.titleYAdjustment) (hhi : cfg.titleYAdjustment ≤ 1) :
    ((create_pie_chart df none cfg).map PieSpec.titleY
        = .ok (min (max ((1 - vGutterT df.length (maxLabelLen df))
            + titleFraction df.length * vGutterT df.length (maxLabelLen df)
            + cfg.titleYAdjustment * (0.5 * vGutterT df.length (maxLabelLen df)))
          0.02) 0.98))
    ∧ ∀ spec, create_pie_chart df none cfg = .ok spec →
        0.02 ≤ spec.titleY ∧ spec.titleY ≤ 0.98 := by
  constructor
  · simp only [create_pie_chart, Except.map, pieSpecOfDf, adjustedTitleY, baseTitleY]
    congr 3
    ring
  · intro spec h
    have hspec : pieSpecOfDf df cfg = spec := by
      simpa [create_pie_chart] using h
    subst hspec
    simp only [pieSpecOfDf, adjustedTitleY]
    exact ⟨le_min (le_max_right _ _) (by norm_num), min_le_right _ _⟩

/-- C6 witness: the emitted title position of a one-slice chart with the
default style lies within the clamp interval. -/
theorem c6_witness :
    0.02 ≤ (pieSpecOfDf [("A", some (1 : ℚ))] defaultStyle).titleY
    ∧ (pieSpecOfDf [("A", some (1 : ℚ))] defaultStyle).titleY ≤ 0.98 :=
  (c6_title_position [("A", some 1)] defaultStyle (by decide) (by decide) (by decide)).2
    (pieSpecOfDf [("A", some 1)] defaultStyle) rfl

/-- Evaluation of the cleaning step on the Royal Caribbean / Carnival rows. -/
theorem cruiseRows_clean_eval :
    build_sidebar_clean cruiseRows
      = [("Royal Caribbean", some 1200000), ("Carnival", some 980500)] := by
  decide

/-- Evaluation of the horizontal gutter at two slices and label length 15. -/
theorem hGutter_two_fifteen : hGutter 2 15 = 0.179 := by
  norm_num [hGutter, min_def]

/-- The horizontal gutter of the cleaned Royal Caribbean / Carnival frame. -/
theorem cruiseRows_hG :
    (pieSpecOfDf (build_sidebar_clean cruiseRows) defaultStyle).hG = 0.179 := by
  rw [show (pieSpecOfDf (build_sidebar_clean cruiseRows) defaultStyle).hG
        = hGutter (build_sidebar_clean cruiseRows).length
            (maxLabelLen (build_sidebar_clean cruiseRows)) from rfl,
      show (build_sidebar_clean cruiseRows).length = 2 by rw [cruiseRows_clean_eval]; rfl,
      show maxLabelLen (build_sidebar_clean cruiseRows) = 15 by
        rw [cruiseRows_clean_eval]; decide]
  exact hGutter_two_fifteen

/-- C7 counterexample: on the Royal Caribbean / Carnival scenario with no
custom order, the computed horizontal gutter is not 0.184 — the longest
label, `"Royal Caribbean"`, has 15 characters, not 16, so the gutter is
0.179. -/
theorem c7_counterexample :
    create_pie_chart (build_sidebar_clean cruiseRows) none defaultStyle
      = .ok (pieSpecOfDf (build_sidebar_clean cruiseRows) defaultStyle)
    ∧ (pieSpecOfDf (build_sidebar_clean cruiseRows) defaultStyle).hG ≠ 0.184 :=
  ⟨rfl, by rw [cruiseRows_hG]; norm_num⟩

/-- C7 amended: the scenario's output values are `[1200000.0, 980500.0]` in
the original order, and the horizontal gutter is
`0.10 + 0.005 * 15 + 0.002 * 2 = 0.179`. -/
theorem c7_values_and_gutter :
    create_pie_chart (build_sidebar_clean cruiseRows) none defaultStyle
      = .ok (pieSpecOfDf (build_sidebar_clean cruiseRows) defaultStyle)
    ∧ (pieSpecOfDf (build_sidebar_clean cruiseRows) defaultStyle).values
        = [some 1200000, some 980500]
    ∧ maxLabelLen (build_sidebar_clean cruiseRows) = 15
    ∧ (pieSpecOfDf (build_sidebar_clean cruiseRows) defaultStyle).hG = 0.179 := by
  refine ⟨rfl, ?_, ?_, cruiseRows_hG⟩
  · rw [show (pieSpecOfDf (build_sidebar_clean cruiseRows) defaultStyle).values
          = (build_sidebar_clean cruiseRows).map Prod.snd from rfl,
        cruiseRows_clean_eval]
    rfl
  · rw [cruiseRows_clean_eval]; decide

/-- C8: the configurator never mutates the caller's series when
reordering: the caller-visible frame after the call is the input frame, and
the produced specification agrees with the plain configurator. -/
theorem c8_no_mutation (df : List (String × Option ℚ)) (order : Option (List String))
    (cfg : ChartStyle) :
    (create_pie_chartSt df order cfg).2 = df
    ∧ (create_pie_chartSt df order cfg).1 = create_pie_chart df order cfg := by
  cases order with
  | none => exact ⟨rfl, rfl⟩
  | some o => cases o with
    | nil => exact ⟨rfl, rfl⟩
    | cons l ls => exact ⟨rfl, rfl⟩

/-- C9: a `None` or empty custom order skips the reindexing, and the
output label sequence is the source order of the input series. -/
theorem c9_falsy_order_keeps_source_order (df : List (String × Option ℚ))
    (cfg : ChartStyle) :
    (create_pie_chart df none cfg).map PieSpec.labels = .ok (df.map Prod.fst)
    ∧ (create_pie_chart df (some []) cfg).map PieSpec.labels = .ok (df.map Prod.fst) :=
  ⟨rfl, rfl⟩

/-- Capacity conversion keeps each row's first (year) cell: every output
row's first cell is the first cell of some input row. -/
theorem convertCapacity_first_cell (rows out : List (List Cell))
    (h : convertCapacity rows = .ok out) :
    ∀ r' ∈ out, ∃ r ∈ rows, getCell r' 0 = getCell r 0 := by
  induction rows generalizing out with
  | nil =>
    simp only [convertCapacity] at h
    cases h
    simp
  | cons r rs ih =>
    simp only [convertCapacity] at h
    cases hp : parseIntChars ((cellToStr (getCell r 1)).toList.filter fun c => c ≠ ',') with
    | none => rw [hp] at h; cases h
    | some n =>
      rw [hp] at h
      cases hc : convertCapacity rs with
      | error e => rw [hc] at h; cases h
      | ok out' =>
        rw [hc] at h
        cases h
        intro r' hr'
        rcases List.mem_cons.mp hr' with h1 | h2
        · exact ⟨r, List.mem_cons_self r rs, by rw [h1]; rfl⟩
        · obtain ⟨rr, hrr, heq⟩ := ih out' hc r' h2
          exact ⟨rr, List.mem_cons_of_mem r hrr, heq⟩

/-- C3 counterexample: in the v2 dashboard a file that cannot be parsed as
a spreadsheet makes the whole chart flow end in an uncaught exception — no
message is displayed, no `DataLoadError` is raised, and the error
propagates past the loader boundary. -/
theorem c3_counterexample :
    appv2_chart_flow (.error "Excel file format cannot be determined") "Sheet1" 0 1
        none defaultStyle
      = .error "Excel file format cannot be determined" := rfl

/-- C3 amended: in the v1 loader every load failure (missing sheet,
unparseable file, malformed data) is caught by the catch-all handler, a
message carrying the underlying cause is displayed, `None` frames are
returned, and the script renders no chart — nothing propagates past the
loader. -/
theorem c3_v1_failure_contained (file : Except String Workbook) (e : String)
    (h : loadBody file = .error e) :
    load_data_from_excel file = (none, ["Error loading Excel file: " ++ e])
    ∧ appMainChartsDrawn file = 0 := by
  constructor
  · simp [load_data_from_excel, h]
  · simp [appMainChartsDrawn, load_data_from_excel, h]

/-- C3 witness: a workbook without the requested `Caribbean` sheet is
reported and rendering is withheld. -/
theorem c3_witness :
    load_data_from_excel (.ok wbNoCaribbean)
      = (none, ["Error loading Excel file: Worksheet named Caribbean not found"])
    ∧ appMainChartsDrawn (.ok wbNoCaribbean) = 0 :=
  c3_v1_failure_contained (.ok wbNoCaribbean) "Worksheet named Caribbean not found" rfl

/-- C10: whenever the v1 loader succeeds, the returned cruise-lines table
has no row whose 'Cruise Line' cell equals the string 'Cruise Line', and
the returned Caribbean table has no row whose first column equals 2016 —
the filters apply to every row, genuine 2016 data rows included. -/
theorem c10_header_and_2016_rows_removed (file : Except String Workbook)
    (df1 df2 : DF) (msgs : List String)
    (h : load_data_from_excel file = (some (df1, df2), msgs)) :
    (∀ i, colIndex df1.header "Cruise Line" = some i →
        ∀ r ∈ df1.rows, cellEqStr (getCell r i) "Cruise Line" = false)
    ∧ ∀ r ∈ df2.rows, cellEqInt (getCell r 0) 2016 = false := by
  have hb : loadBody file = .ok (df1, df2) := by
    rcases hlb : loadBody file with e | p
    · rw [load_data_from_excel.eq_def, hlb] at h
      simp at h
    · rw [load_data_from_excel.eq_def, hlb] at h
      simp only [Prod.mk.injEq, Option.some.injEq] at h
      rw [h.1]
  rw [loadBody.eq_def] at hb
  split at hb
  · exact Except.noConfusion hb
  split at hb
  · exact Except.noConfusion hb
  rename_i dfc hs1
  split at hb
  · exact Except.noConfusion hb
  rename_i dfy hs2
  split at hb
  · exact Except.noConfusion hb
  rename_i i hcol
  split at hb
  · exact Except.noConfusion hb
  split at hb
  swap
  · exact Except.noConfusion hb
  split at hb
  · exact Except.noConfusion hb
  rename_i rowsC hconv
  injection hb with hp
  injection hp with h1 h2
  subst h1
  subst h2
  refine ⟨?_, ?_⟩
  · intro i' hi' r hr
    have hi2 : colIndex dfc.header "Cruise Line" = some i' := hi'
    rw [hcol] at hi2
    injection hi2 with hieq
    subst hieq
    have hr2 : r ∈ dfc.rows.filter fun r => !cellEqStr (getCell r i) "Cruise Line" := hr
    have hmem := List.mem_filter.mp hr2
    simpa using hmem.2
  · intro r hr
    have hr2 : r ∈ rowsC := hr
    obtain ⟨rr, hrr, heq⟩ := convertCapacity_first_cell _ _ hconv r hr2
    rw [heq]
    have hmem := List.mem_filter.mp hrr
    simpa using hmem.2

/-- C10 witness: in a workbook whose Caribbean sheet carries a genuine
data row for 2016, that row is filtered out of the loader's output. -/
theorem c10_witness :
    cellEqInt (getCell [Cell.int 2017, Cell.int 2000] 0) 2016 = false :=
  (c10_header_and_2016_rows_removed (.ok wbWith2016)
      ⟨["Cruise Line", "Capacity"], [[Cell.str "Royal", Cell.str "1,000"]]⟩
      ⟨["Year", "Capacity"], [[Cell.int 2017, Cell.int 2000]]⟩ [] rfl).2
    [Cell.int 2017, Cell.int 2000] (by decide)
